import Mathlib

/-!
Shallow embedding of the library-management business-logic layer
(services/library_service.py) and proofs of its specified properties.

Modelling conventions:
* Timestamps are natural numbers counting seconds since the Unix epoch;
  the Python expression `(current_date - due_date).days` becomes floor
  division of the elapsed seconds by 86400.
* Money is held in integer cents. Every dollar amount the fee calculator
  can produce is a multiple of $0.50 below $16, so Python float
  arithmetic on these values is exact and the cents embedding is
  faithful; `round(fee_amount, 2)` is the identity on such values.
* The persistence collaborators (database module) are not part of the
  source tree; each service function therefore takes the value a
  collaborator call would return as an explicit argument, and emits the
  writes it attempts as an explicit list, in order.
* The payment gateway is injected, so its behaviour (return a tuple, or
  raise) is an explicit argument; the second component of a payment or
  refund result counts how many times the gateway method was invoked.
-/

namespace LibraryService

/-- Book row as stored by the catalog: identity, descriptive fields and
copy counts (`available_copies` is mutated by borrow and return). -/
structure Book where
  id : Nat
  title : String
  author : String
  isbn : String
  total_copies : Int
  available_copies : Int
deriving Repr, DecidableEq

/-- An outstanding borrow record as returned by the collaborator
`get_patron_borrowed_books` for one patron: the fee calculator and the
return coordinator read only `book_id` and `due_date` from it. -/
structure BorrowRecord where
  book_id : Nat
  due_date : Nat
deriving Repr, DecidableEq

/-- Result of a catalog, borrow or return operation: the Python pair
`(success, message)`. -/
structure OpResult where
  success : Bool
  message : String
deriving Repr, DecidableEq

/-- One write against the persistence collaborator, with the arguments
the service passes at the call site. -/
inductive WriteOp where
  | insertBook (title author isbn : String) (total_copies available_copies : Int)
  | insertBorrowRecord (patron_id : String) (book_id : Nat) (borrow_date due_date : Nat)
  | updateAvailability (book_id : Nat) (delta : Int)
  | setReturnDate (patron_id : String) (book_id : Nat) (return_date : Nat)
deriving Repr, DecidableEq

/-- Fee assessment dictionary returned by `calculate_late_fee_for_book`:
`fee_amount` is in cents. -/
structure FeeAssessment where
  fee_amount : Nat
  days_overdue : Nat
  status : String
deriving Repr, DecidableEq

/-- Python `str.strip()`: the string without leading and trailing
whitespace (an executable equivalent of `String.trim`, stated over the
character list so that concrete instances evaluate). -/
def strip (s : String) : String :=
  ⟨((s.data.dropWhile Char.isWhitespace).reverse.dropWhile
      Char.isWhitespace).reverse⟩

/-- Python `str.startswith(p)`: prefix test on the character lists. -/
def strStartsWith (s p : String) : Bool :=
  p.data.isPrefixOf s.data

/-- Patron-id validation shared by several functions: Python
`patron_id and patron_id.isdigit() and len(patron_id) == 6`. -/
def isValidPatronId (patron_id : String) : Bool :=
  patron_id.length == 6 && patron_id.data.all Char.isDigit

/-- Two-digit zero-padded rendering of a number below 100. -/
def pad2 (n : Nat) : String :=
  if n < 10 then "0" ++ toString n else toString n

/-- Dollar string for an amount of cents, as produced by the Python
format `f-string` with `:.2f` on the exactly-representable fee values. -/
def centsToDollarString (cents : Nat) : String :=
  toString (cents / 100) ++ "." ++ pad2 (cents % 100)

/-- Gregorian civil date (year, month, day) from a count of days since
1970-01-01, the standard days-from-civil inverse algorithm; used to model
`strftime("%Y-%m-%d")` on a timestamp. -/
def civilFromDays (z : Nat) : Nat × Nat × Nat :=
  let z' := z + 719468
  let era := z' / 146097
  let doe := z' % 146097
  let yoe := (doe - doe / 1460 + doe / 36524 - doe / 146096) / 365
  let y := yoe + era * 400
  let doy := doe - (365 * yoe + yoe / 4 - yoe / 100)
  let mp := (5 * doy + 2) / 153
  let d := doy - (153 * mp + 2) / 5 + 1
  let m := if mp < 10 then mp + 3 else mp - 9
  (if m ≤ 2 then y + 1 else y, m, d)

/-- Timestamp (seconds) rendered as `YYYY-MM-DD`, modelling
`strftime("%Y-%m-%d")`. -/
def formatYmd (secs : Nat) : String :=
  let c := civilFromDays (secs / 86400)
  toString c.1 ++ "-" ++ pad2 c.2.1 ++ "-" ++ pad2 c.2.2

/-- Embedding of the overdue branch of `calculate_late_fee_for_book`:
tiered fee (first 7 days at 50 cents, then 100 cents per day), the
$15.00 cap, and the status message with its maximum-fee marker, all as
a function of `days_overdue`, which is the only input of that branch.
The record lookup in the source is the Python
`next((b for b in borrowed_books if b["book_id"] == book_id), None)`;
`days_overdue` is `(current_date - due_date).days`, floor division of
the positive elapsed seconds by 86400. -/
def overdueAssessment (days_overdue : Nat) : FeeAssessment :=
  let raw_fee :=
    if days_overdue ≤ 7 then 50 * days_overdue
    else 7 * 50 + 100 * (days_overdue - 7)
  let fee_amount := min raw_fee 1500
  let base := "Late fee: $" ++ centsToDollarString fee_amount ++ " for "
    ++ toString days_overdue ++ " days overdue"
  let status :=
    if 1500 ≤ fee_amount then base ++ " (maximum fee applied)" else base
  ⟨fee_amount, days_overdue, status⟩

/-- Embedding of the record lookup and overdue test surrounding the
computation above, completing `calculate_late_fee_for_book`. -/
def calculate_late_fee_for_book (borrowed_books : List BorrowRecord)
    (book_id : Nat) (now : Nat) : FeeAssessment :=
  match borrowed_books.find? (fun b => b.book_id == book_id) with
  | none => ⟨0, 0, "No active borrow record found"⟩
  | some borrow_record =>
    if now ≤ borrow_record.due_date then
      ⟨0, 0, "No late fees - book not overdue"⟩
    else
      overdueAssessment ((now - borrow_record.due_date) / 86400)

/-- Embedding of `add_book_to_catalog`. `existing` is what
`get_book_by_isbn(isbn)` returned; `insert_ok` is the boolean result of
the attempted `insert_book` write. The `isinstance(total_copies, int)`
half of the Python check is vacuous in a typed embedding, leaving
`total_copies <= 0`. The second component lists the attempted writes. -/
def add_book_to_catalog (title author isbn : String) (total_copies : Int)
    (existing : Option Book) (insert_ok : Bool) : OpResult × List WriteOp :=
  if strip title = "" then
    (⟨false, "Title is required."⟩, [])
  else if 200 < (strip title).length then
    (⟨false, "Title must be less than 200 characters."⟩, [])
  else if strip author = "" then
    (⟨false, "Author is required."⟩, [])
  else if 100 < (strip author).length then
    (⟨false, "Author must be less than 100 characters."⟩, [])
  else if isbn.length ≠ 13 then
    (⟨false, "ISBN must be exactly 13 digits."⟩, [])
  else if total_copies ≤ 0 then
    (⟨false, "Total copies must be a positive integer."⟩, [])
  else if existing.isSome then
    (⟨false, "A book with this ISBN already exists."⟩, [])
  else
    let write := WriteOp.insertBook (strip title) (strip author) isbn total_copies total_copies
    if insert_ok then
      (⟨true, "Book \"" ++ strip title ++ "\" has been successfully added to the catalog."⟩,
        [write])
    else
      (⟨false, "Database error occurred while adding the book."⟩, [write])

/-- Embedding of `borrow_book_by_patron`. `book` is what
`get_book_by_id(book_id)` returned, `current_borrowed` what
`get_patron_borrow_count(patron_id)` returned, `now` is
`datetime.now()`; `insert_ok` and `avail_ok` are the boolean results of
the two attempted writes. The due date is `now + 14 days`. -/
def borrow_book_by_patron (patron_id : String) (book_id : Nat)
    (book : Option Book) (current_borrowed : Nat) (now : Nat)
    (insert_ok avail_ok : Bool) : OpResult × List WriteOp :=
  if ¬ isValidPatronId patron_id then
    (⟨false, "Invalid patron ID. Must be exactly 6 digits."⟩, [])
  else
    match book with
    | none => (⟨false, "Book not found."⟩, [])
    | some book =>
      if book.available_copies ≤ 0 then
        (⟨false, "This book is currently not available."⟩, [])
      else if 5 < current_borrowed then
        (⟨false, "You have reached the maximum borrowing limit of 5 books."⟩, [])
      else
        let due_date := now + 14 * 86400
        let insertWrite := WriteOp.insertBorrowRecord patron_id book_id now due_date
        if ¬ insert_ok then
          (⟨false, "Database error occurred while creating borrow record."⟩, [insertWrite])
        else if ¬ avail_ok then
          (⟨false, "Database error occurred while updating book availability."⟩,
            [insertWrite, WriteOp.updateAvailability book_id (-1)])
        else
          (⟨true, "Successfully borrowed \"" ++ book.title ++ "\". Due date: "
              ++ formatYmd due_date ++ "."⟩,
            [insertWrite, WriteOp.updateAvailability book_id (-1)])

/-- Embedding of `return_book_by_patron`. `book` is what
`get_book_by_id(book_id)` returned, `borrowed_books` what
`get_patron_borrowed_books(patron_id)` returned; `return_ok` and
`avail_ok` are the boolean results of the two writes, which the source
attempts unconditionally one after the other before inspecting either
result. The misspelt message "INvalid" is as in the source. -/
def return_book_by_patron (patron_id : String) (book_id : Nat)
    (book : Option Book) (borrowed_books : List BorrowRecord) (now : Nat)
    (return_ok avail_ok : Bool) : OpResult × List WriteOp :=
  if ¬ isValidPatronId patron_id then
    (⟨false, "INvalid patron ID. Must be exactly 6 digits."⟩, [])
  else
    match book with
    | none => (⟨false, "Book not found."⟩, [])
    | some book =>
      if ¬ borrowed_books.any (fun b => b.book_id == book_id) then
        (⟨false, "No active borrow record found for this book and patron."⟩, [])
      else
        let writes := [WriteOp.setReturnDate patron_id book_id now,
          WriteOp.updateAvailability book_id 4]
        if return_ok && avail_ok then
          (⟨true, "Successfully returned \"" ++ book.title ++ "\"."⟩, writes)
        else
          (⟨false, "Database error occurred during return process."⟩, writes)

/-- Modelled from the spec: the persistence collaborator
`update_book_availability(book_id, delta)` is not in the source tree;
per the spec it adjusts `available_copies` of the given book by `delta`
and returns a success boolean. This function gives the net change to a
given book persisted by a list of attempted availability writes whose
write calls succeeded (`ok = true`) or all failed (`ok = false`). -/
def appliedAvailabilityDelta (writes : List WriteOp) (ok : Bool) (book_id : Nat) : Int :=
  if ok then
    writes.foldl (fun acc w =>
      match w with
      | WriteOp.updateAvailability b d => if b == book_id then acc + d else acc
      | _ => acc) 0
  else 0

/-- Behaviour of an injected `process_payment` call: either it returns
the Python triple `(success, transaction_id, message)` or it raises. -/
inductive GatewayPaymentBehavior where
  | returns (success : Bool) (transaction_id : String) (message : String)
  | raises (error : String)
deriving Repr, DecidableEq

/-- Behaviour of an injected `refund_payment` call: either it returns
the Python pair `(success, message)` or it raises. -/
inductive GatewayRefundBehavior where
  | returns (success : Bool) (message : String)
  | raises (error : String)
deriving Repr, DecidableEq

/-- Result triple of `pay_late_fees`:
`(success, message, transaction_id)`. -/
structure PayResult where
  success : Bool
  message : String
  transaction_id : Option String
deriving Repr, DecidableEq

/-- Result pair of `refund_late_fee_payment`: `(success, message)`. -/
structure RefundResult where
  success : Bool
  message : String
deriving Repr, DecidableEq

/-- Embedding of `pay_late_fees`. `borrowed_books` and `now` feed the
internal `calculate_late_fee_for_book` call; `book` is what
`get_book_by_id(book_id)` returned; `gateway` is the behaviour of the
injected gateway. The Python guard `not fee_info or "fee_amount" not in
fee_info` is vacuous here because the embedded calculator always
returns a full assessment. The second component counts
`process_payment` invocations. -/
def pay_late_fees (patron_id : String) (book_id : Nat)
    (borrowed_books : List BorrowRecord) (now : Nat) (book : Option Book)
    (gateway : GatewayPaymentBehavior) : PayResult × Nat :=
  if ¬ isValidPatronId patron_id then
    (⟨false, "Invalid patron ID. Must be exactly 6 digits.", none⟩, 0)
  else
    let fee_info := calculate_late_fee_for_book borrowed_books book_id now
    if fee_info.fee_amount ≤ 0 then
      (⟨false, "No late fees to pay for this book.", none⟩, 0)
    else
      match book with
      | none => (⟨false, "Book not found.", none⟩, 0)
      | some _ =>
        match gateway with
        | GatewayPaymentBehavior.returns true transaction_id message =>
          (⟨true, "Payment successful! " ++ message, some transaction_id⟩, 1)
        | GatewayPaymentBehavior.returns false _ message =>
          (⟨false, "Payment failed: " ++ message, none⟩, 1)
        | GatewayPaymentBehavior.raises e =>
          (⟨false, "Payment processing error: " ++ e, none⟩, 1)

/-- Embedding of `refund_late_fee_payment`. The amount is a rational:
every Python float the comparisons distinguish embeds exactly. The
transaction-id check is `not transaction_id or not
transaction_id.startswith("txn_")`. The second component counts
`refund_payment` invocations. -/
def refund_late_fee_payment (transaction_id : String) (amount : ℚ)
    (gateway : GatewayRefundBehavior) : RefundResult × Nat :=
  if transaction_id = "" ∨ ¬ strStartsWith transaction_id "txn_" then
    (⟨false, "Invalid transaction ID."⟩, 0)
  else if amount ≤ 0 then
    (⟨false, "Refund amount must be greater than 0."⟩, 0)
  else if 15 < amount then
    (⟨false, "Refund amount exceeds maximum late fee."⟩, 0)
  else
    match gateway with
    | GatewayRefundBehavior.returns true message => (⟨true, message⟩, 1)
    | GatewayRefundBehavior.returns false message =>
      (⟨false, "Refund failed: " ++ message⟩, 1)
    | GatewayRefundBehavior.raises e =>
      (⟨false, "Refund processing error: " ++ e⟩, 1)

/-- Reduction of `calculate_late_fee_for_book` when the lookup finds no
record. -/
theorem calc_fee_of_find_none (borrowed_books : List BorrowRecord)
    (book_id now : Nat)
    (h : borrowed_books.find? (fun b => b.book_id == book_id) = none) :
    calculate_late_fee_for_book borrowed_books book_id now
      = ⟨0, 0, "No active borrow record found"⟩ := by
  unfold calculate_late_fee_for_book
  rw [h]

/-- Reduction of `calculate_late_fee_for_book` when the record found is
not yet overdue. -/
theorem calc_fee_of_not_overdue (borrowed_books : List BorrowRecord)
    (book_id now : Nat) (r : BorrowRecord)
    (h : borrowed_books.find? (fun b => b.book_id == book_id) = some r)
    (hle : now ≤ r.due_date) :
    calculate_late_fee_for_book borrowed_books book_id now
      = ⟨0, 0, "No late fees - book not overdue"⟩ := by
  unfold calculate_late_fee_for_book
  rw [h]
  exact if_pos hle

/-- Reduction of `calculate_late_fee_for_book` when the record found is
overdue. -/
theorem calc_fee_of_overdue (borrowed_books : List BorrowRecord)
    (book_id now : Nat) (r : BorrowRecord)
    (h : borrowed_books.find? (fun b => b.book_id == book_id) = some r)
    (hov : r.due_date < now) :
    calculate_late_fee_for_book borrowed_books book_id now
      = overdueAssessment ((now - r.due_date) / 86400) := by
  unfold calculate_late_fee_for_book
  rw [h]
  exact if_neg (Nat.not_le.mpr hov)

/-- Days field of an overdue assessment. -/
theorem overdueAssessment_days (d : Nat) :
    (overdueAssessment d).days_overdue = d := rfl

/-- Fee field of an overdue assessment, before any simplification. -/
theorem overdueAssessment_fee (d : Nat) :
    (overdueAssessment d).fee_amount
      = min (if d ≤ 7 then 50 * d else 7 * 50 + 100 * (d - 7)) 1500 := rfl

/-- C1 (claim as stated refuted): with an outstanding record exactly 17
days overdue, the fee is 1350 cents ($13.50), not the 1500 cents the
claim requires, and the status string is the plain report without the
maximum-fee marker. -/
theorem fee_cap_at_17_refuted :
    (calculate_late_fee_for_book [⟨1, 0⟩] 1 (17 * 86400)).days_overdue = 17
    ∧ (calculate_late_fee_for_book [⟨1, 0⟩] 1 (17 * 86400)).fee_amount = 1350
    ∧ (calculate_late_fee_for_book [⟨1, 0⟩] 1 (17 * 86400)).status
        = "Late fee: $13.50 for 17 days overdue"
    ∧ (1350 : Nat) ≠ 1500 := by
  decide

/-- C1 (amended): for every outstanding borrow record at least 19 days
overdue, `calculate_late_fee_for_book` returns a fee of exactly $15.00
(1500 cents) and its status string is the base report with the
"(maximum fee applied)" marker appended. -/
theorem fee_cap_from_day19 (borrowed_books : List BorrowRecord)
    (book_id now : Nat) (r : BorrowRecord)
    (hfind : borrowed_books.find? (fun b => b.book_id == book_id) = some r)
    (h19 : 19 ≤ (now - r.due_date) / 86400) :
    (calculate_late_fee_for_book borrowed_books book_id now).fee_amount = 1500
    ∧ (calculate_late_fee_for_book borrowed_books book_id now).status
        = ("Late fee: $" ++ centsToDollarString 1500 ++ " for "
            ++ toString ((now - r.due_date) / 86400) ++ " days overdue")
          ++ " (maximum fee applied)" := by
  have hover : r.due_date < now := by omega
  rw [calc_fee_of_overdue borrowed_books book_id now r hfind hover]
  set d := (now - r.due_date) / 86400 with hd
  have h7 : ¬ d ≤ 7 := by omega
  have hraw : 1500 ≤ 7 * 50 + 100 * (d - 7) := by omega
  constructor
  · rw [overdueAssessment_fee, if_neg h7]
    exact Nat.min_eq_right hraw
  · show (overdueAssessment d).status = _
    simp only [overdueAssessment, if_neg h7, Nat.min_eq_right hraw, le_refl,
      if_pos]

/-- C1 witness: a record 20 days overdue is assessed at exactly 1500
cents. -/
theorem fee_cap_from_day19_witness :
    (calculate_late_fee_for_book [⟨1, 0⟩] 1 (20 * 86400)).fee_amount = 1500 :=
  (fee_cap_from_day19 [⟨1, 0⟩] 1 (20 * 86400) ⟨1, 0⟩ (by decide) (by decide)).1

/-- C3: for an outstanding record overdue by at least one whole day,
the fee equals min(1500, 50 * min(d, 7) + 100 * (d - 7)) cents where
d = days_overdue is the floor of the elapsed seconds over 86400; in
particular d = 7 gives 350 cents and d = 8 gives 450 cents. -/
theorem fee_formula_tiers_and_truncation (borrowed_books : List BorrowRecord)
    (book_id now : Nat) (r : BorrowRecord)
    (hfind : borrowed_books.find? (fun b => b.book_id == book_id) = some r)
    (hover : r.due_date < now)
    (hd : 1 ≤ (now - r.due_date) / 86400) :
    (calculate_late_fee_for_book borrowed_books book_id now).days_overdue
        = (now - r.due_date) / 86400
    ∧ (calculate_late_fee_for_book borrowed_books book_id now).fee_amount
        = min 1500 (50 * min ((now - r.due_date) / 86400) 7
            + 100 * ((now - r.due_date) / 86400 - 7))
    ∧ ((now - r.due_date) / 86400 = 7 →
        (calculate_late_fee_for_book borrowed_books book_id now).fee_amount = 350)
    ∧ ((now - r.due_date) / 86400 = 8 →
        (calculate_late_fee_for_book borrowed_books book_id now).fee_amount = 450) := by
  rw [calc_fee_of_overdue borrowed_books book_id now r hfind hover]
  set d := (now - r.due_date) / 86400 with hd
  refine ⟨overdueAssessment_days d, ?_, ?_, ?_⟩
  · rw [overdueAssessment_fee]
    rcases le_or_lt d 7 with h7 | h7
    · rw [if_pos h7]
      omega
    · rw [if_neg (Nat.not_le.mpr h7)]
      omega
  · intro h7
    rw [overdueAssessment_fee, h7]
    decide
  · intro h8
    rw [overdueAssessment_fee, h8]
    decide

/-- C3 witness: a record overdue by exactly 7 days plus one second has
days_overdue 7 and fee 350 cents. -/
theorem fee_formula_tiers_witness :
    (calculate_late_fee_for_book [⟨1, 0⟩] 1 (7 * 86400 + 1)).fee_amount = 350 :=
  (fee_formula_tiers_and_truncation [⟨1, 0⟩] 1 (7 * 86400 + 1) ⟨1, 0⟩
    (by decide) (by decide) (by decide)).2.2.1 (by decide)

/-- C9: every assessment has fee_amount between 0 and 1500 cents, and
the assessment is the zero one (fee 0, days 0) both when no record in
the borrowed list matches the book and when the current time is not
past the due date of the matching record. -/
theorem fee_assessment_bounds_and_zero_cases (borrowed_books : List BorrowRecord)
    (book_id now : Nat) :
    (0 ≤ (calculate_late_fee_for_book borrowed_books book_id now).fee_amount
      ∧ (calculate_late_fee_for_book borrowed_books book_id now).fee_amount ≤ 1500)
    ∧ ((∀ b ∈ borrowed_books, b.book_id ≠ book_id) →
        calculate_late_fee_for_book borrowed_books book_id now
          = ⟨0, 0, "No active borrow record found"⟩)
    ∧ (∀ r, borrowed_books.find? (fun b => b.book_id == book_id) = some r →
        now ≤ r.due_date →
        calculate_late_fee_for_book borrowed_books book_id now
          = ⟨0, 0, "No late fees - book not overdue"⟩) := by
  refine ⟨⟨Nat.zero_le _, ?_⟩, ?_, ?_⟩
  · cases hfind : borrowed_books.find? (fun b => b.book_id == book_id) with
    | none =>
      rw [calc_fee_of_find_none borrowed_books book_id now hfind]
      decide
    | some r =>
      by_cases hle : now ≤ r.due_date
      · rw [calc_fee_of_not_overdue borrowed_books book_id now r hfind hle]
        decide
      · rw [calc_fee_of_overdue borrowed_books book_id now r hfind
          (Nat.not_le.mp hle)]
        rw [overdueAssessment_fee]
        exact Nat.min_le_right _ _
  · intro hnone
    have hfind : borrowed_books.find? (fun b => b.book_id == book_id) = none := by
      rw [List.find?_eq_none]
      intro b hb
      simpa using hnone b hb
    exact calc_fee_of_find_none borrowed_books book_id now hfind
  · intro r hfind hle
    exact calc_fee_of_not_overdue borrowed_books book_id now r hfind hle

/-- C9 witness: with a single record for a different book, the
assessment is the zero no-active-record one. -/
theorem fee_assessment_bounds_witness :
    calculate_late_fee_for_book [⟨2, 50⟩] 1 100
      = ⟨0, 0, "No active borrow record found"⟩ :=
  (fee_assessment_bounds_and_zero_cases [⟨2, 50⟩] 1 100).2.1 (by decide)

/-- C8: `add_book_to_catalog` applies its validation checks in the
fixed order title non-empty, title length, author non-empty, author
length, isbn length, positive copies, duplicate isbn; it returns the
message of the first failed check with no write attempted, and when
every check passes it attempts exactly one insert whose
available_copies argument equals total_copies, succeeding when the
write does. -/
theorem add_book_validation_order (title author isbn : String)
    (total_copies : Int) (existing : Option Book) (insert_ok : Bool) :
    (strip title = "" →
      add_book_to_catalog title author isbn total_copies existing insert_ok
        = (⟨false, "Title is required."⟩, []))
    ∧ (strip title ≠ "" → 200 < (strip title).length →
      add_book_to_catalog title author isbn total_copies existing insert_ok
        = (⟨false, "Title must be less than 200 characters."⟩, []))
    ∧ (strip title ≠ "" → (strip title).length ≤ 200 → strip author = "" →
      add_book_to_catalog title author isbn total_copies existing insert_ok
        = (⟨false, "Author is required."⟩, []))
    ∧ (strip title ≠ "" → (strip title).length ≤ 200 → strip author ≠ "" →
        100 < (strip author).length →
      add_book_to_catalog title author isbn total_copies existing insert_ok
        = (⟨false, "Author must be less than 100 characters."⟩, []))
    ∧ (strip title ≠ "" → (strip title).length ≤ 200 → strip author ≠ "" →
        (strip author).length ≤ 100 → isbn.length ≠ 13 →
      add_book_to_catalog title author isbn total_copies existing insert_ok
        = (⟨false, "ISBN must be exactly 13 digits."⟩, []))
    ∧ (strip title ≠ "" → (strip title).length ≤ 200 → strip author ≠ "" →
        (strip author).length ≤ 100 → isbn.length = 13 → total_copies ≤ 0 →
      add_book_to_catalog title author isbn total_copies existing insert_ok
        = (⟨false, "Total copies must be a positive integer."⟩, []))
    ∧ (strip title ≠ "" → (strip title).length ≤ 200 → strip author ≠ "" →
        (strip author).length ≤ 100 → isbn.length = 13 → 0 < total_copies →
        existing.isSome = true →
      add_book_to_catalog title author isbn total_copies existing insert_ok
        = (⟨false, "A book with this ISBN already exists."⟩, []))
    ∧ (strip title ≠ "" → (strip title).length ≤ 200 → strip author ≠ "" →
        (strip author).length ≤ 100 → isbn.length = 13 → 0 < total_copies →
        existing = none →
      (add_book_to_catalog title author isbn total_copies existing insert_ok).2
          = [WriteOp.insertBook (strip title) (strip author) isbn
              total_copies total_copies]
      ∧ (insert_ok = true →
        add_book_to_catalog title author isbn total_copies existing insert_ok
          = (⟨true, "Book \"" ++ strip title
                ++ "\" has been successfully added to the catalog."⟩,
             [WriteOp.insertBook (strip title) (strip author) isbn
               total_copies total_copies]))) := by
  refine ⟨?_, ?_, ?_, ?_, ?_, ?_, ?_, ?_⟩
  · intro h1
    unfold add_book_to_catalog
    rw [if_pos h1]
  · intro h1 h2
    unfold add_book_to_catalog
    rw [if_neg h1, if_pos h2]
  · intro h1 h2 h3
    unfold add_book_to_catalog
    rw [if_neg h1, if_neg (Nat.not_lt.mpr h2), if_pos h3]
  · intro h1 h2 h3 h4
    unfold add_book_to_catalog
    rw [if_neg h1, if_neg (Nat.not_lt.mpr h2), if_neg h3, if_pos h4]
  · intro h1 h2 h3 h4 h5
    unfold add_book_to_catalog
    rw [if_neg h1, if_neg (Nat.not_lt.mpr h2), if_neg h3,
      if_neg (Nat.not_lt.mpr h4), if_pos h5]
  · intro h1 h2 h3 h4 h5 h6
    unfold add_book_to_catalog
    rw [if_neg h1, if_neg (Nat.not_lt.mpr h2), if_neg h3,
      if_neg (Nat.not_lt.mpr h4), if_neg (not_not_intro h5), if_pos h6]
  · intro h1 h2 h3 h4 h5 h6 h7
    unfold add_book_to_catalog
    rw [if_neg h1, if_neg (Nat.not_lt.mpr h2), if_neg h3,
      if_neg (Nat.not_lt.mpr h4), if_neg (not_not_intro h5),
      if_neg (not_le.mpr h6), if_pos h7]
  · intro h1 h2 h3 h4 h5 h6 h7
    have h7' : ¬ (existing.isSome = true) := by
      rw [h7]
      simp
    unfold add_book_to_catalog
    rw [if_neg h1, if_neg (Nat.not_lt.mpr h2), if_neg h3,
      if_neg (Nat.not_lt.mpr h4), if_neg (not_not_intro h5),
      if_neg (not_le.mpr h6), if_neg h7']
    constructor
    · cases insert_ok with
      | false => rfl
      | true => rfl
    · intro h8
      rw [h8]
      rfl

/-- C8 witness: valid concrete inputs pass every check in order and the
single insert write carries available_copies equal to total_copies. -/
theorem add_book_validation_order_witness :
    add_book_to_catalog "Dune" "Frank Herbert" "9780441013593" 3 none true
      = (⟨true, "Book \"Dune\" has been successfully added to the catalog."⟩,
         [WriteOp.insertBook "Dune" "Frank Herbert" "9780441013593" 3 3]) := by
  have h := (add_book_validation_order "Dune" "Frank Herbert" "9780441013593"
    3 none true).2.2.2.2.2.2.2 (by decide) (by decide) (by decide) (by decide)
    (by decide) (by decide) rfl
  exact h.2 rfl

/-- Reduction of `borrow_book_by_patron` past the patron and book
checks, for a valid patron and an existing available book. -/
theorem borrow_of_eligible_book (patron_id : String) (book_id : Nat) (b : Book)
    (current_borrowed now : Nat) (insert_ok avail_ok : Bool)
    (hpid : isValidPatronId patron_id = true)
    (havail : 0 < b.available_copies) :
    borrow_book_by_patron patron_id book_id (some b) current_borrowed now
        insert_ok avail_ok
      = (if 5 < current_borrowed then
          (⟨false, "You have reached the maximum borrowing limit of 5 books."⟩, [])
        else if ¬ insert_ok then
          (⟨false, "Database error occurred while creating borrow record."⟩,
           [WriteOp.insertBorrowRecord patron_id book_id now (now + 14 * 86400)])
        else if ¬ avail_ok then
          (⟨false, "Database error occurred while updating book availability."⟩,
           [WriteOp.insertBorrowRecord patron_id book_id now (now + 14 * 86400),
            WriteOp.updateAvailability book_id (-1)])
        else
          (⟨true, "Successfully borrowed \"" ++ b.title ++ "\". Due date: "
              ++ formatYmd (now + 14 * 86400) ++ "."⟩,
           [WriteOp.insertBorrowRecord patron_id book_id now (now + 14 * 86400),
            WriteOp.updateAvailability book_id (-1)])) := by
  unfold borrow_book_by_patron
  rw [if_neg (not_not_intro hpid)]
  dsimp only
  rw [if_neg (not_le.mpr havail)]

/-- C4: with a valid patron and an available existing book, the borrow
is rejected with the limit message exactly when the outstanding count
is strictly greater than 5, and for every count up to 5 it goes through
(succeeding when both writes succeed). -/
theorem borrow_limit_boundary (patron_id : String) (book_id : Nat) (b : Book)
    (current_borrowed now : Nat) (insert_ok avail_ok : Bool)
    (hpid : isValidPatronId patron_id = true)
    (havail : 0 < b.available_copies) :
    ((borrow_book_by_patron patron_id book_id (some b) current_borrowed now
        insert_ok avail_ok).1
      = ⟨false, "You have reached the maximum borrowing limit of 5 books."⟩
      ↔ 5 < current_borrowed)
    ∧ (current_borrowed ≤ 5 → insert_ok = true → avail_ok = true →
      (borrow_book_by_patron patron_id book_id (some b) current_borrowed now
        insert_ok avail_ok).1.success = true) := by
  rw [borrow_of_eligible_book patron_id book_id b current_borrowed now
    insert_ok avail_ok hpid havail]
  constructor
  · constructor
    · intro h
      by_contra hc
      rw [if_neg hc] at h
      cases hio : insert_ok with
      | false =>
        rw [if_pos (by rw [hio]; exact Bool.false_ne_true)] at h
        have hm : ("Database error occurred while creating borrow record." : String)
            = "You have reached the maximum borrowing limit of 5 books." :=
          congrArg OpResult.message h
        exact absurd hm (by decide)
      | true =>
        rw [if_neg (by rw [hio]; exact not_not_intro rfl)] at h
        cases hao : avail_ok with
        | false =>
          rw [if_pos (by rw [hao]; exact Bool.false_ne_true)] at h
          have hm : ("Database error occurred while updating book availability." : String)
              = "You have reached the maximum borrowing limit of 5 books." :=
            congrArg OpResult.message h
          exact absurd hm (by decide)
        | true =>
          rw [if_neg (by rw [hao]; exact not_not_intro rfl)] at h
          have hs : (true : Bool) = false := congrArg OpResult.success h
          exact absurd hs (by decide)
    · intro h6
      rw [if_pos h6]
  · intro h5 hins havl
    rw [if_neg (Nat.not_lt.mpr h5), hins, havl,
      if_neg (not_not_intro rfl), if_neg (not_not_intro rfl)]

/-- C4 witness: patron 123456 holding exactly 5 books borrows a 6th
successfully, while holding 6 is rejected with the limit message. -/
theorem borrow_limit_boundary_witness :
    (borrow_book_by_patron "123456" 1
        (some ⟨1, "Dune", "Frank Herbert", "9780441013593", 3, 3⟩)
        5 0 true true).1.success = true
    ∧ ((borrow_book_by_patron "123456" 1
        (some ⟨1, "Dune", "Frank Herbert", "9780441013593", 3, 3⟩)
        6 0 true true).1
      = ⟨false, "You have reached the maximum borrowing limit of 5 books."⟩) := by
  constructor
  · exact (borrow_limit_boundary "123456" 1
      ⟨1, "Dune", "Frank Herbert", "9780441013593", 3, 3⟩ 5 0 true true
      (by decide) (by decide)).2 (by decide) rfl rfl
  · exact (borrow_limit_boundary "123456" 1
      ⟨1, "Dune", "Frank Herbert", "9780441013593", 3, 3⟩ 6 0 true true
      (by decide) (by decide)).1.mpr (by decide)

/-- Reduction of `return_book_by_patron` past the patron, book and
borrow-record checks: both writes are attempted in order regardless of
the outcome of either, and the result succeeds only when both write
results are true. -/
theorem return_of_outstanding (patron_id : String) (book_id : Nat) (b : Book)
    (borrowed_books : List BorrowRecord) (now : Nat) (return_ok avail_ok : Bool)
    (hpid : isValidPatronId patron_id = true)
    (hrec : borrowed_books.any (fun r => r.book_id == book_id) = true) :
    return_book_by_patron patron_id book_id (some b) borrowed_books now
        return_ok avail_ok
      = (if return_ok && avail_ok then
           ⟨true, "Successfully returned \"" ++ b.title ++ "\"."⟩
         else ⟨false, "Database error occurred during return process."⟩,
         [WriteOp.setReturnDate patron_id book_id now,
          WriteOp.updateAvailability book_id 4]) := by
  unfold return_book_by_patron
  rw [if_neg (not_not_intro hpid)]
  dsimp only
  rw [if_neg (not_not_intro hrec)]
  split <;> rfl

/-- C2 (code evaluated at the failing input): a fully successful return
by patron 123456 performs the availability update with delta 4, not the
increment of 1 the specification mandates, while the return-date write
does carry the current time. -/
theorem return_availability_delta_is_four :
    return_book_by_patron "123456" 1
        (some ⟨1, "Dune", "Frank Herbert", "9780441013593", 3, 2⟩)
        [⟨1, 1000⟩] 5000 true true
      = (⟨true, "Successfully returned \"Dune\"."⟩,
         [WriteOp.setReturnDate "123456" 1 5000,
          WriteOp.updateAvailability 1 4])
    ∧ (4 : Int) ≠ 1 := by
  decide

/-- C10: when the return-date write fails and the availability write
succeeds, `return_book_by_patron` reports the storage-error failure yet
the availability write was still attempted and its persisted net change
to the book is 4, not zero. -/
theorem return_non_atomic_on_write_failure (patron_id : String) (book_id : Nat)
    (b : Book) (borrowed_books : List BorrowRecord) (now : Nat)
    (hpid : isValidPatronId patron_id = true)
    (hrec : borrowed_books.any (fun r => r.book_id == book_id) = true) :
    (return_book_by_patron patron_id book_id (some b) borrowed_books now
        false true).1
      = ⟨false, "Database error occurred during return process."⟩
    ∧ WriteOp.updateAvailability book_id 4
        ∈ (return_book_by_patron patron_id book_id (some b) borrowed_books now
            false true).2
    ∧ appliedAvailabilityDelta
        (return_book_by_patron patron_id book_id (some b) borrowed_books now
          false true).2 true book_id ≠ 0 := by
  rw [return_of_outstanding patron_id book_id b borrowed_books now false true
    hpid hrec]
  refine ⟨rfl, ?_, ?_⟩
  · exact List.mem_cons_of_mem _ (List.mem_singleton.mpr rfl)
  · simp [appliedAvailabilityDelta]

/-- C10 witness: concrete failed return-date write with successful
availability write. -/
theorem return_non_atomic_witness :
    appliedAvailabilityDelta
      (return_book_by_patron "123456" 1
        (some ⟨1, "Dune", "Frank Herbert", "9780441013593", 3, 2⟩)
        [⟨1, 1000⟩] 5000 false true).2 true 1 ≠ 0 :=
  (return_non_atomic_on_write_failure "123456" 1
    ⟨1, "Dune", "Frank Herbert", "9780441013593", 3, 2⟩ [⟨1, 1000⟩] 5000
    (by decide) (by decide)).2.2

/-- Reduction of `pay_late_fees` for an invalid patron id. -/
theorem pay_of_invalid_patron (patron_id : String) (book_id : Nat)
    (borrowed_books : List BorrowRecord) (now : Nat) (book : Option Book)
    (gateway : GatewayPaymentBehavior)
    (hpid : isValidPatronId patron_id = false) :
    pay_late_fees patron_id book_id borrowed_books now book gateway
      = (⟨false, "Invalid patron ID. Must be exactly 6 digits.", none⟩, 0) := by
  unfold pay_late_fees
  rw [if_pos (by rw [hpid]; exact Bool.false_ne_true)]

/-- Reduction of `pay_late_fees` when the computed fee is zero. -/
theorem pay_of_no_fee (patron_id : String) (book_id : Nat)
    (borrowed_books : List BorrowRecord) (now : Nat) (book : Option Book)
    (gateway : GatewayPaymentBehavior)
    (hpid : isValidPatronId patron_id = true)
    (hfee : (calculate_late_fee_for_book borrowed_books book_id now).fee_amount
      ≤ 0) :
    pay_late_fees patron_id book_id borrowed_books now book gateway
      = (⟨false, "No late fees to pay for this book.", none⟩, 0) := by
  unfold pay_late_fees
  rw [if_neg (not_not_intro hpid)]
  dsimp only
  rw [if_pos hfee]

/-- Reduction of `pay_late_fees` when a positive fee is due but the
book lookup returned nothing. -/
theorem pay_of_missing_book (patron_id : String) (book_id : Nat)
    (borrowed_books : List BorrowRecord) (now : Nat)
    (gateway : GatewayPaymentBehavior)
    (hpid : isValidPatronId patron_id = true)
    (hfee : ¬ (calculate_late_fee_for_book borrowed_books book_id now).fee_amount
      ≤ 0) :
    pay_late_fees patron_id book_id borrowed_books now none gateway
      = (⟨false, "Book not found.", none⟩, 0) := by
  unfold pay_late_fees
  rw [if_neg (not_not_intro hpid)]
  dsimp only
  rw [if_neg hfee]

/-- Reduction of `pay_late_fees` when validation, fee and book lookup
all pass: the gateway is invoked exactly once and its three behaviours
map to the three structured results. -/
theorem pay_of_payable (patron_id : String) (book_id : Nat)
    (borrowed_books : List BorrowRecord) (now : Nat) (b : Book)
    (gateway : GatewayPaymentBehavior)
    (hpid : isValidPatronId patron_id = true)
    (hfee : ¬ (calculate_late_fee_for_book borrowed_books book_id now).fee_amount
      ≤ 0) :
    pay_late_fees patron_id book_id borrowed_books now (some b) gateway
      = (match gateway with
         | GatewayPaymentBehavior.returns true transaction_id message =>
           (⟨true, "Payment successful! " ++ message, some transaction_id⟩, 1)
         | GatewayPaymentBehavior.returns false _ message =>
           (⟨false, "Payment failed: " ++ message, none⟩, 1)
         | GatewayPaymentBehavior.raises e =>
           (⟨false, "Payment processing error: " ++ e, none⟩, 1)) := by
  unfold pay_late_fees
  rw [if_neg (not_not_intro hpid)]
  dsimp only
  rw [if_neg hfee]

/-- C5: `pay_late_fees` performs zero gateway invocations and returns a
failure whenever the patron id is malformed, or the computed fee is not
positive, or the book is absent. -/
theorem pay_late_fees_gateway_guard (patron_id : String) (book_id : Nat)
    (borrowed_books : List BorrowRecord) (now : Nat) (book : Option Book)
    (gateway : GatewayPaymentBehavior)
    (h : isValidPatronId patron_id = false
      ∨ (calculate_late_fee_for_book borrowed_books book_id now).fee_amount ≤ 0
      ∨ book = none) :
    (pay_late_fees patron_id book_id borrowed_books now book gateway).2 = 0
    ∧ (pay_late_fees patron_id book_id borrowed_books now book gateway).1.success
      = false := by
  rcases h with h | h | h
  · rw [pay_of_invalid_patron patron_id book_id borrowed_books now book gateway h]
    exact ⟨rfl, rfl⟩
  · cases hpid : isValidPatronId patron_id with
    | false =>
      rw [pay_of_invalid_patron patron_id book_id borrowed_books now book
        gateway hpid]
      exact ⟨rfl, rfl⟩
    | true =>
      rw [pay_of_no_fee patron_id book_id borrowed_books now book gateway hpid h]
      exact ⟨rfl, rfl⟩
  · subst h
    cases hpid : isValidPatronId patron_id with
    | false =>
      rw [pay_of_invalid_patron patron_id book_id borrowed_books now none
        gateway hpid]
      exact ⟨rfl, rfl⟩
    | true =>
      by_cases hfee : (calculate_late_fee_for_book borrowed_books book_id
          now).fee_amount ≤ 0
      · rw [pay_of_no_fee patron_id book_id borrowed_books now none gateway
          hpid hfee]
        exact ⟨rfl, rfl⟩
      · rw [pay_of_missing_book patron_id book_id borrowed_books now gateway
          hpid hfee]
        exact ⟨rfl, rfl⟩

/-- C5 witness: absent book with a positive fee due yields a failure
with zero gateway calls. -/
theorem pay_late_fees_gateway_guard_witness :
    (pay_late_fees "123456" 1 [⟨1, 0⟩] (20 * 86400) none
      (GatewayPaymentBehavior.returns true "txn_1" "ok")).2 = 0 :=
  (pay_late_fees_gateway_guard "123456" 1 [⟨1, 0⟩] (20 * 86400) none
    (GatewayPaymentBehavior.returns true "txn_1" "ok")
    (Or.inr (Or.inr rfl))).1

/-- Reduction of `refund_late_fee_payment` for a transaction id that
fails the gateway identifier format check. -/
theorem refund_of_bad_id (transaction_id : String) (amount : ℚ)
    (gateway : GatewayRefundBehavior)
    (h : strStartsWith transaction_id "txn_" = false) :
    refund_late_fee_payment transaction_id amount gateway
      = (⟨false, "Invalid transaction ID."⟩, 0) := by
  unfold refund_late_fee_payment
  rw [if_pos (Or.inr (by rw [h]; exact Bool.false_ne_true))]

/-- Reduction of `refund_late_fee_payment` past the transaction-id
check for an id in the gateway format (such an id is nonempty). -/
theorem refund_of_valid_id (transaction_id : String) (amount : ℚ)
    (gateway : GatewayRefundBehavior)
    (ht : strStartsWith transaction_id "txn_" = true) :
    refund_late_fee_payment transaction_id amount gateway
      = (if amount ≤ 0 then (⟨false, "Refund amount must be greater than 0."⟩, 0)
         else if 15 < amount then
           (⟨false, "Refund amount exceeds maximum late fee."⟩, 0)
         else match gateway with
           | GatewayRefundBehavior.returns true message => (⟨true, message⟩, 1)
           | GatewayRefundBehavior.returns false message =>
             (⟨false, "Refund failed: " ++ message⟩, 1)
           | GatewayRefundBehavior.raises e =>
             (⟨false, "Refund processing error: " ++ e⟩, 1)) := by
  have hne : transaction_id ≠ "" := by
    intro he
    rw [he] at ht
    exact absurd ht (by decide)
  unfold refund_late_fee_payment
  rw [if_neg (not_or.mpr ⟨hne, not_not_intro ht⟩)]

/-- C6: `refund_late_fee_payment` returns a failure with zero gateway
invocations whenever the transaction id is not in the gateway format or
the amount is nonpositive or exceeds 15.00; for a format-conforming id
and an amount in (0, 15.00] it invokes `refund_payment` exactly once. -/
theorem refund_gateway_call_policy (transaction_id : String) (amount : ℚ)
    (gateway : GatewayRefundBehavior) :
    ((strStartsWith transaction_id "txn_" = false ∨ amount ≤ 0 ∨ 15 < amount) →
      (refund_late_fee_payment transaction_id amount gateway).2 = 0
      ∧ (refund_late_fee_payment transaction_id amount gateway).1.success
        = false)
    ∧ (strStartsWith transaction_id "txn_" = true → 0 < amount → amount ≤ 15 →
      (refund_late_fee_payment transaction_id amount gateway).2 = 1) := by
  constructor
  · intro h
    rcases h with h | h | h
    · rw [refund_of_bad_id transaction_id amount gateway h]
      exact ⟨rfl, rfl⟩
    · cases ht : strStartsWith transaction_id "txn_" with
      | false =>
        rw [refund_of_bad_id transaction_id amount gateway ht]
        exact ⟨rfl, rfl⟩
      | true =>
        rw [refund_of_valid_id transaction_id amount gateway ht, if_pos h]
        exact ⟨rfl, rfl⟩
    · cases ht : strStartsWith transaction_id "txn_" with
      | false =>
        rw [refund_of_bad_id transaction_id amount gateway ht]
        exact ⟨rfl, rfl⟩
      | true =>
        have h0 : ¬ amount ≤ 0 := not_le.mpr (lt_trans (by norm_num) h)
        rw [refund_of_valid_id transaction_id amount gateway ht, if_neg h0,
          if_pos h]
        exact ⟨rfl, rfl⟩
  · intro ht h0 h15
    rw [refund_of_valid_id transaction_id amount gateway ht,
      if_neg (not_le.mpr h0), if_neg (not_lt.mpr h15)]
    cases gateway with
    | returns s message => cases s <;> rfl
    | raises e => rfl

/-- C6 witness: a conforming id with an in-range amount invokes the
gateway exactly once. -/
theorem refund_gateway_call_policy_witness :
    (refund_late_fee_payment "txn_9" 10
      (GatewayRefundBehavior.returns true "Refund processed")).2 = 1 :=
  (refund_gateway_call_policy "txn_9" 10
    (GatewayRefundBehavior.returns true "Refund processed")).2
    (by decide) (by norm_num) (by norm_num)

/-- C7: whatever the injected gateway does, both orchestrators return a
structured result rather than propagating: gateway success maps to a
success result carrying the transaction id (for refunds, the gateway
message), decline maps to a failure carrying the reason, and a raised
exception is caught and mapped to a failure with the generic error
message. -/
theorem gateway_outcomes_never_propagate (patron_id : String) (book_id : Nat)
    (borrowed_books : List BorrowRecord) (now : Nat) (b : Book)
    (transaction_id message error refund_id : String) (amount : ℚ)
    (hpid : isValidPatronId patron_id = true)
    (hfee : ¬ (calculate_late_fee_for_book borrowed_books book_id
      now).fee_amount ≤ 0)
    (ht : strStartsWith refund_id "txn_" = true)
    (h0 : ¬ amount ≤ 0) (h15 : ¬ 15 < amount) :
    pay_late_fees patron_id book_id borrowed_books now (some b)
        (GatewayPaymentBehavior.returns true transaction_id message)
      = (⟨true, "Payment successful! " ++ message, some transaction_id⟩, 1)
    ∧ pay_late_fees patron_id book_id borrowed_books now (some b)
        (GatewayPaymentBehavior.returns false transaction_id message)
      = (⟨false, "Payment failed: " ++ message, none⟩, 1)
    ∧ pay_late_fees patron_id book_id borrowed_books now (some b)
        (GatewayPaymentBehavior.raises error)
      = (⟨false, "Payment processing error: " ++ error, none⟩, 1)
    ∧ refund_late_fee_payment refund_id amount
        (GatewayRefundBehavior.returns true message)
      = (⟨true, message⟩, 1)
    ∧ refund_late_fee_payment refund_id amount
        (GatewayRefundBehavior.returns false message)
      = (⟨false, "Refund failed: " ++ message⟩, 1)
    ∧ refund_late_fee_payment refund_id amount
        (GatewayRefundBehavior.raises error)
      = (⟨false, "Refund processing error: " ++ error⟩, 1) := by
  refine ⟨?_, ?_, ?_, ?_, ?_, ?_⟩
  · rw [pay_of_payable patron_id book_id borrowed_books now b _ hpid hfee]
  · rw [pay_of_payable patron_id book_id borrowed_books now b _ hpid hfee]
  · rw [pay_of_payable patron_id book_id borrowed_books now b _ hpid hfee]
  · rw [refund_of_valid_id refund_id amount _ ht, if_neg h0, if_neg h15]
  · rw [refund_of_valid_id refund_id amount _ ht, if_neg h0, if_neg h15]
  · rw [refund_of_valid_id refund_id amount _ ht, if_neg h0, if_neg h15]

/-- C7 witness: a raising gateway at a concrete payable input is caught
and mapped to the generic payment-processing failure. -/
theorem gateway_outcomes_never_propagate_witness :
    pay_late_fees "123456" 1 [⟨1, 0⟩] (20 * 86400)
        (some ⟨1, "Dune", "Frank Herbert", "9780441013593", 3, 3⟩)
        (GatewayPaymentBehavior.raises "network down")
      = (⟨false, "Payment processing error: network down", none⟩, 1) :=
  (gateway_outcomes_never_propagate "123456" 1 [⟨1, 0⟩] (20 * 86400)
    ⟨1, "Dune", "Frank Herbert", "9780441013593", 3, 3⟩
    "txn_1" "ok" "network down" "txn_2" 5
    (by decide) (by decide) (by decide) (by norm_num) (by norm_num)).2.2.1

end LibraryService
